import Mathlib

/-!
Verification of the filmpro script-parsing and analysis core.

This file gives a shallow embedding, in Lean, of the parts of the
filmpro-service repository that the specification talks about:

* the scene-heading classifier and format detector
  (app/services/script_parser/base.py),
* the Fountain line-state-machine parser
  (app/services/script_parser/fountain.py),
* the relationship/importance scoring of the character analyzer
  (app/services/script_analysis/character_analyzer.py),
* the complexity scoring of the scene analyzer
  (app/services/script_analysis/scene_analyzer.py),
* the element deduplication of the element extractor
  (app/services/script_analysis/element_extractor.py).

Python strings are modelled as Lean strings; the handful of Python string
primitives the code uses (strip, split, startswith, upper/lower, "in") are
re-implemented below on the underlying character lists, structurally, so
that every definition evaluates by kernel reduction.  Python numbers are
modelled as rationals.  Python code that would raise an exception (division
by zero) is modelled in the Option monad.
-/

namespace Filmpro

/-! ### Python string primitives -/

/-- Whitespace characters recognised by the Python "str.strip" / "str.split"
primitives (ASCII fragment; the scripts under analysis are ASCII). -/
def isPySpace (c : Char) : Bool :=
  c = ' ' || c = '\t' || c = '\n' || c = '\r' || c = '\x0b' || c = '\x0c'

/-- Characters of "line.strip()": drop whitespace from both ends. -/
def pyStripList (l : List Char) : List Char :=
  ((l.dropWhile isPySpace).reverse.dropWhile isPySpace).reverse

/-- Python "line.strip()". -/
def pyStrip (s : String) : String := String.mk (pyStripList s.data)

/-- Python "s.startswith(p)". -/
def pyStartsWith (p s : String) : Bool := p.data.isPrefixOf s.data

/-- Python "s.endswith(p)". -/
def pyEndsWith (p s : String) : Bool := p.data.isSuffixOf s.data

/-- Python "s.upper()" (ASCII). -/
def pyUpper (s : String) : String := String.mk (s.data.map Char.toUpper)

/-- Python "s.lower()" (ASCII). -/
def pyLower (s : String) : String := String.mk (s.data.map Char.toLower)

/-- Python "s[n:]". -/
def strDrop (n : Nat) (s : String) : String := String.mk (s.data.drop n)

/-- Python "s[:n]". -/
def strTake (n : Nat) (s : String) : String := String.mk (s.data.take n)

/-- Substring test on character lists: "needle in hay" in Python. -/
def containsSub (needle : List Char) : List Char → Bool
  | [] => needle.isPrefixOf []
  | c :: t => needle.isPrefixOf (c :: t) || containsSub needle t

/-- Python "needle in hay" for strings. -/
def pyContains (needle hay : String) : Bool := containsSub needle.data hay.data

/-- Splitter for "content.split(sep)" with a nonempty separator, fuelled so
that the recursion is structural (the fuel is an upper bound on the length
of the list being split and is never exhausted). -/
def splitSepFuel (sep : List Char) : Nat → List Char → List (List Char)
  | 0, l => [l]
  | _ + 1, [] => [[]]
  | n + 1, c :: t =>
    if sep.isPrefixOf (c :: t) then
      [] :: splitSepFuel sep n ((c :: t).drop sep.length)
    else
      match splitSepFuel sep n t with
      | [] => [[c]]
      | h :: rest => (c :: h) :: rest

/-- Python "s.split(sep)" for a nonempty separator. -/
def pySplitSep (sep s : String) : List String :=
  (splitSepFuel sep.data (s.data.length + 1) s.data).map String.mk

/-- Characters of "content.split(chr(10))". -/
def splitNl : List Char → List (List Char)
  | [] => [[]]
  | c :: t =>
    if c = '\n' then [] :: splitNl t
    else
      match splitNl t with
      | [] => [[c]]
      | h :: rest => (c :: h) :: rest

/-- Python "content.split(chr(10))": the parser feeds every line,
including a final empty one for trailing newlines. -/
def pySplitLines (s : String) : List String := (splitNl s.data).map String.mk

/-- Whitespace-separated tokens, as produced by Python "line.split()". -/
def pyTokensAux : List Char → List Char → List (List Char)
  | [], acc => if acc.isEmpty then [] else [acc.reverse]
  | c :: t, acc =>
    if isPySpace c then
      if acc.isEmpty then pyTokensAux t [] else acc.reverse :: pyTokensAux t []
    else pyTokensAux t (c :: acc)

/-- Python "len(line.split())": the number of whitespace-separated words. -/
def numTokens (s : String) : Nat := (pyTokensAux s.data []).length

/-- Decimal value of a digit string, used to model Python "int(s)" on
strings of ASCII digits. -/
def digitsVal (l : List Char) : Nat :=
  l.foldl (fun a c => a * 10 + (c.toNat - '0'.toNat)) 0

/-- Python "s.isdigit()" (ASCII fragment: the scene numbers the parser
produces are ASCII decimal strings). -/
def isDigits (s : String) : Bool := !s.data.isEmpty && s.data.all Char.isDigit

/-- Decimal printing of a natural number, fuelled structurally; with fuel
at least n + 1 this is the usual decimal representation, i.e. Python
"str(n)" for a nonnegative integer. -/
def natToStrAux : Nat → Nat → List Char
  | 0, _ => []
  | fuel + 1, n =>
    if n < 10 then [Nat.digitChar n]
    else natToStrAux fuel (n / 10) ++ [Nat.digitChar (n % 10)]

/-- Python "str(n)" for a natural number. -/
def natToStr (n : Nat) : String := String.mk (natToStrAux (n + 1) n)

/-! ### Scene-heading classifier (ScriptParserBase.extract_scene_heading) -/

/-- Transliteration of ScriptParserBase.extract_scene_heading
(script_parser/base.py, lines 88-125).  The INT/EXT branch of the source
computes "line[line.find(chr(46))+1:]"; on a line starting with "INT/EXT."
the first dot sits at index 7, on a line starting with "I/E." at index 3,
so the slice drops 8 respectively 4 characters. -/
def extractSceneHeading (line : String) :
    Option String × Option String × Option String :=
  let l := pyStrip line
  let (int_ext, rest) :=
    if pyStartsWith "INT." l then (some "INT", pyStrip (strDrop 4 l))
    else if pyStartsWith "EXT." l then (some "EXT", pyStrip (strDrop 4 l))
    else if pyStartsWith "INT/EXT." l then (some "INT/EXT", pyStrip (strDrop 8 l))
    else if pyStartsWith "I/E." l then (some "INT/EXT", pyStrip (strDrop 4 l))
    else (none, l)
  match pySplitSep " - " rest with
  | p0 :: p1 :: _ => (int_ext, some (pyStrip p0), some (pyStrip p1))
  | _ => (int_ext, some (pyStrip rest), none)

/-- Modelled from the amended claim for C4: the prefix tokens are matched
CASE-SENSITIVELY, in the order INT., EXT., INT/EXT., I/E.; the remainder is
split on the literal separator " - ", the first segment is the location and
only the SECOND segment (segments beyond the second are discarded) is the
time of day, null when there is no separator; an unrecognised prefix gives
a null marker and the whole remainder as location. -/
def extractSceneHeadingAmended (line : String) :
    Option String × Option String × Option String :=
  let t := pyStrip line
  let table : List (String × String × Nat) :=
    [("INT.", "INT", 4), ("EXT.", "EXT", 4),
     ("INT/EXT.", "INT/EXT", 8), ("I/E.", "INT/EXT", 4)]
  let locTime : String → Option String × Option String := fun rest =>
    match pySplitSep " - " rest with
    | p0 :: p1 :: _ => (some (pyStrip p0), some (pyStrip p1))
    | _ => (some (pyStrip rest), none)
  match table.find? (fun p => pyStartsWith p.1 t) with
  | some (_, tag, k) => (some tag, locTime (pyStrip (strDrop k t)))
  | none => (none, locTime t)

/-! ### Format detector (ScriptParserBase.detect_format) -/

/-- The ScriptFormat enumeration of app/models/script.py. -/
inductive ScriptFormat where
  | fountain
  | pdf
  | finalDraft
  | plainText
deriving DecidableEq, Repr

/-- Transliteration of ScriptParserBase.detect_format
(script_parser/base.py, lines 52-86), as a function of the file suffix
and of the file content (the source reads the first 1000 characters of the
file; here the whole content is passed and the take happens in place of
the bounded read). -/
def detectFormat (suffix content : String) : ScriptFormat :=
  let s := pyLower suffix
  if s = ".fountain" || s = ".spmd" then .fountain
  else if s = ".pdf" then .pdf
  else if s = ".fdx" then .finalDraft
  else
    let c := strTake 1000 content
    if pyContains "<?xml" c && pyContains "<FinalDraft" c then .finalDraft
    else if pyContains "INT." c || pyContains "EXT." c then
      if pyContains "FADE IN:" c || pyContains "CUT TO:" c then .fountain
      else .plainText
    else .plainText

/-- The format-detection rule as the specification words it: extension
first; otherwise FinalDraft when both the XML header and the FinalDraft
root tag occur in the first 1000 characters, Fountain when both a
scene-heading token and a transition token occur, PlainText in all
remaining cases. -/
def detectFormatSpec (suffix content : String) : ScriptFormat :=
  let s := pyLower suffix
  if s = ".fountain" || s = ".spmd" then .fountain
  else if s = ".pdf" then .pdf
  else if s = ".fdx" then .finalDraft
  else
    let c := strTake 1000 content
    if pyContains "<?xml" c && pyContains "<FinalDraft" c then .finalDraft
    else if (pyContains "INT." c || pyContains "EXT." c)
        && (pyContains "FADE IN:" c || pyContains "CUT TO:" c) then .fountain
    else .plainText

/-! ### Fountain parser (FountainParser.parse, script_parser/fountain.py)

The parse loop of FountainParser.parse (lines 25-173) is embedded as a
step function on an explicit parser state, folded over the lines of the
input.  Metadata extraction (FountainParser._extract_metadata) touches
neither the scenes nor the characters of the result and is not modelled.
-/

/-- A dialogue block, as built by the parser. -/
structure Dialogue where
  character : String
  lines : List String
  parentheticals : List String
deriving DecidableEq, Repr

/-- A scene record, as built by the parser. -/
structure Scene where
  scene_number : String
  slug_line : String
  page_number : Nat
  int_ext : Option String
  location : Option String
  time_of_day : Option String
  content : String
  characters : List String
  dialogue : List Dialogue
  action : List String
deriving DecidableEq, Repr

/-- A character aggregate record, as built by the parser. -/
structure CharInfo where
  name : String
  dialogue_count : Nat
  word_count : Nat
  scenes : List String
deriving DecidableEq, Repr

/-- The mutable state of the parse loop: the Python locals scenes,
characters (a dict keyed by name, modelled as an insertion-ordered
association list carrying the name in the record), current_scene,
current_character, current_dialogue, in_dialogue, scene_number_counter
and page_number. -/
structure PState where
  scenes : List Scene
  characters : List CharInfo
  current_scene : Option Scene
  current_character : Option String
  current_dialogue : Option Dialogue
  in_dialogue : Bool
  counter : Nat
  page : Nat
deriving Repr

/-- PAGE_BREAK_PATTERN, the anchored regex of two or more equals signs. -/
def isPageBreak (l : String) : Bool :=
  2 ≤ l.data.length && l.data.all (· = '=')

/-- SCENE_HEADING_PATTERN, the case-insensitive anchored regex
(INT|EXT|I/E|INT/EXT) followed by a dot or slash: after upcasing, the
line starts with one of INT, EXT, I/E followed by a dot or slash (the
INT/EXT alternative is subsumed by INT followed by a slash). -/
def matchesHeading (l : String) : Bool :=
  let u := l.data.map Char.toUpper
  "INT.".data.isPrefixOf u || "INT/".data.isPrefixOf u ||
  "EXT.".data.isPrefixOf u || "EXT/".data.isPrefixOf u ||
  "I/E.".data.isPrefixOf u || "I/E/".data.isPrefixOf u

/-- CHARACTER_PATTERN, the anchored regex of one or more characters each
an ASCII capital or whitespace. -/
def isCueLine (l : String) : Bool :=
  !l.data.isEmpty && l.data.all (fun c => ('A' ≤ c && c ≤ 'Z') || isPySpace c)

/-- PARENTHETICAL_PATTERN: the whole line is wrapped in parentheses. -/
def isParenLine (l : String) : Bool :=
  pyStartsWith "(" l && pyEndsWith ")" l && 2 ≤ l.data.length

/-- Positions of the hash character in a line, starting the count at the
given offset. -/
def hashIdxsFrom : Nat → List Char → List Nat
  | _, [] => []
  | i, c :: t => if c = '#' then i :: hashIdxsFrom (i + 1) t else hashIdxsFrom (i + 1) t

/-- SCENE_NUMBER_PATTERN search and substitution: the regex hash (.+) hash
searches for the leftmost hash that is followed, two or more positions
later, by another hash; the greedy group then extends to the last hash of
the line.  Returns the group together with the line with the whole match
removed (the text after the match contains no hash, so the global
substitution removes exactly this one match). -/
def findSceneNumber (s : String) : Option (String × String) :=
  let l := s.data
  let idxs := hashIdxsFrom 0 l
  match idxs.getLast? with
  | none => none
  | some last =>
    match idxs.find? (fun i => i + 2 ≤ last) with
    | none => none
    | some i =>
      some (String.mk ((l.take last).drop (i + 1)),
            String.mk (l.take i ++ l.drop (last + 1)))

/-- Look up a character record by name: "name in characters" plus indexing
on the Python dict. -/
def hasChar (cs : List CharInfo) (n : String) : Bool := cs.any (·.name = n)

/-- In-place update of the record stored under a dict key. -/
def updateChar (cs : List CharInfo) (n : String) (f : CharInfo → CharInfo) :
    List CharInfo :=
  cs.map fun c => if c.name = n then f c else c

/-- Scene-heading branch of the parse loop (fountain.py lines 67-103):
flush the open scene, extract an explicit scene number marker if present,
strip a forced-heading dot, classify the heading and open a new scene. -/
def headingStep (st : PState) (line : String) : PState :=
  let scenes1 := match st.current_scene with
    | some sc => st.scenes ++ [sc]
    | none => st.scenes
  let numberAndLine := match findSceneNumber line with
    | some (g, rest) => (g, pyStrip rest)
    | none => (natToStr st.counter, line)
  let line2 := if pyStartsWith "." numberAndLine.2
    then pyStrip (strDrop 1 numberAndLine.2) else numberAndLine.2
  let ext := extractSceneHeading line2
  { st with
    scenes := scenes1
    current_scene := some
      { scene_number := numberAndLine.1
        slug_line := line2
        page_number := st.page
        int_ext := ext.1
        location := ext.2.1
        time_of_day := ext.2.2
        content := line2 ++ "\n"
        characters := []
        dialogue := []
        action := [] }
    counter := st.counter + 1
    in_dialogue := false }

/-- Character-cue branch of the parse loop (fountain.py lines 105-132):
open a new dialogue block, add the character to the scene and to the
running character aggregates. -/
def cueStep (st : PState) (line : String) : PState :=
  let scene1 := match st.current_scene with
    | some sc =>
      some (if line ∈ sc.characters then sc
            else { sc with characters := sc.characters ++ [line] })
    | none => none
  let chars1 :=
    if hasChar st.characters line then
      updateChar st.characters line fun c =>
        let c1 := { c with dialogue_count := c.dialogue_count + 1 }
        match st.current_scene with
        | some sc =>
          if sc.scene_number ∈ c1.scenes then c1
          else { c1 with scenes := c1.scenes ++ [sc.scene_number] }
        | none => c1
    else
      st.characters ++
        [{ name := line, dialogue_count := 1, word_count := 0
           scenes := match st.current_scene with
             | some sc => [sc.scene_number]
             | none => [] }]
  { st with
    current_scene := scene1
    characters := chars1
    current_character := some line
    in_dialogue := true
    current_dialogue := some { character := line, lines := [], parentheticals := [] } }

/-- Parenthetical branch of the parse loop (fountain.py lines 134-138). -/
def parenStep (st : PState) (line : String) : PState :=
  match st.current_dialogue with
  | some d =>
    let d1 := { d with parentheticals := d.parentheticals ++ [line] }
    { st with current_dialogue := some d1 }
  | none => st

/-- Dialogue-continuation branch of the parse loop (fountain.py lines
140-149): append the line to the open block, add its word count to the
speaking character and the line to the scene content. -/
def dialogueStep (st : PState) (d : Dialogue) (line : String) : PState :=
  let wc := numTokens line
  let chars1 := match st.current_character with
    | some cName =>
      if hasChar st.characters cName then
        updateChar st.characters cName fun c =>
          { c with word_count := c.word_count + wc }
      else st.characters
    | none => st.characters
  let scene1 := match st.current_scene with
    | some sc => some { sc with content := sc.content ++ line ++ "\n" }
    | none => none
  { st with
    current_dialogue := some { d with lines := d.lines ++ [line] }
    characters := chars1
    current_scene := scene1 }

/-- Action fallback branch of the parse loop (fountain.py lines 151-160):
append the line to the action list of the open scene, clear the
in-dialogue flag, and flush a pending dialogue block into the open scene
(the block is kept pending when no scene is open). -/
def fallbackStep (st : PState) (line : String) : PState :=
  let scene1 := match st.current_scene with
    | some sc =>
      some { sc with action := sc.action ++ [line]
                     content := sc.content ++ line ++ "\n" }
    | none => none
  match st.current_dialogue, scene1 with
  | some d, some sc =>
    { st with
      current_scene := some { sc with dialogue := sc.dialogue ++ [d] }
      current_dialogue := none
      in_dialogue := false }
  | _, _ => { st with current_scene := scene1, in_dialogue := false }

/-- One iteration of the parse loop of FountainParser.parse, with the
branch guards in source order: blank line, page break, scene heading,
character cue, parenthetical, dialogue continuation, action fallback. -/
def step (st : PState) (raw : String) : PState :=
  let line := pyStrip raw
  if line = "" then st
  else if isPageBreak line then { st with page := st.page + 1 }
  else if matchesHeading line || pyStartsWith "." line then headingStep st line
  else if !st.in_dialogue && isCueLine line && !pyStartsWith "!" line then
    cueStep st line
  else if st.in_dialogue && isParenLine line then parenStep st line
  else
    match st.in_dialogue, st.current_dialogue with
    | true, some d => dialogueStep st d line
    | _, _ => fallbackStep st line

/-- Appending the still-open scene at the end of the loop
(fountain.py lines 162-164). -/
def flushScenes (st : PState) : List Scene :=
  match st.current_scene with
  | some sc => st.scenes ++ [sc]
  | none => st.scenes

/-- The result of FountainParser.parse that the claims are about: the
scenes list and the characters list (the characters dict converted to a
list in insertion order). -/
structure ParseResult where
  scenes : List Scene
  characters : List CharInfo
deriving DecidableEq, Repr

/-- The initial state of the parse loop (fountain.py lines 44-51). -/
def initState : PState :=
  { scenes := [], characters := [], current_scene := none
    current_character := none, current_dialogue := none
    in_dialogue := false, counter := 1, page := 1 }

/-- FountainParser.parse on a decoded file content: fold the step function
over the lines and flush the last open scene. -/
def parseFountain (content : String) : ParseResult :=
  let st := (pySplitLines content).foldl step initState
  { scenes := flushScenes st, characters := st.characters }

/-! ### Rounding

Python "round(x, k)" rounds half to even.  It is modelled exactly on the
rationals (the source computes with floats; none of the quantities in the
claims hits a representation issue).
-/

/-- Round half to even to the nearest integer, as Python "round(x)". -/
def bankersRound (x : ℚ) : ℤ :=
  if x - ⌊x⌋ < 1 / 2 then ⌊x⌋
  else if 1 / 2 < x - ⌊x⌋ then ⌊x⌋ + 1
  else if 2 ∣ ⌊x⌋ then ⌊x⌋ else ⌊x⌋ + 1

/-- Python "round(x, 2)". -/
def round2 (q : ℚ) : ℚ := (bankersRound (q * 100) : ℚ) / 100

/-- Python "round(x, 1)". -/
def round1 (q : ℚ) : ℚ := (bankersRound (q * 10) : ℚ) / 10

/-! ### Character analyzer: relationships and importance
(script_analysis/character_analyzer.py) -/

/-- The Jaccard co-occurrence score of CharacterAnalyzer.
_analyze_character_relationships (lines 246-248): shared scene count over
union scene count.  The caller divides only after checking both scene sets
nonempty, so the union is nonempty there. -/
def coOccurrence (s1 s2 : Finset String) : ℚ :=
  ((s1 ∩ s2).card : ℚ) / ((s1 ∪ s2).card : ℚ)

/-- Number of immediately-consecutive dialogue pairs alternating between
the two characters (fountain scene dialogue list, lines 307-313 of
character_analyzer.py). -/
def countAdjacent (c1 c2 : String) (sd : List Dialogue) : Nat :=
  (sd.zip sd.tail).countP fun p =>
    (p.1.character == c1 && p.2.character == c2) ||
    (p.1.character == c2 && p.2.character == c1)

/-- Number of dialogue turns of a character in a scene dialogue list. -/
def countSpeaker (c : String) (sd : List Dialogue) : Nat :=
  sd.countP (·.character == c)

/-- The counting loop of CharacterAnalyzer._calculate_dialogue_interaction
(lines 294-323): over the shared scenes with at least two dialogue blocks,
accumulate the alternating adjacent turn count of the pair and the summed
minimum of the per-scene turn counts (scenes where only one of the two
speaks add nothing to the divisor). -/
def interactionStats (c1 c2 : String) (scenes : List Scene)
    (shared : Finset String) : Nat × Nat :=
  scenes.foldl
    (fun (acc : Nat × Nat) scene =>
      if scene.scene_number ∉ shared then acc
      else
        let sd := scene.dialogue
        if sd.length ≤ 1 then acc
        else
          let ic := countAdjacent c1 c2 sd
          let mpi :=
            if sd.any (·.character == c1) && sd.any (·.character == c2) then
              min (countSpeaker c1 sd) (countSpeaker c2 sd)
            else 0
          (acc.1 + ic, acc.2 + mpi))
    (0, 0)

/-- The final division of _calculate_dialogue_interaction
(lines 325-329). -/
def dialogueInteraction (c1 c2 : String) (scenes : List Scene)
    (shared : Finset String) : ℚ :=
  if (interactionStats c1 c2 scenes shared).2 = 0 then 0
  else ((interactionStats c1 c2 scenes shared).1 : ℚ) /
    ((interactionStats c1 c2 scenes shared).2 : ℚ)

/-- A relationship entry as stored in the relationship matrix
(lines 260-275 of character_analyzer.py).  The source stores
list(shared_scenes) twice from the same set object; the field is modelled
as the set itself. -/
structure RelEntry where
  strength : ℚ
  co_occurrence : ℚ
  dialogue_interaction : ℚ
  shared_scenes : Finset String
  relationship_type : String
deriving DecidableEq

/-- The ordered pairs produced by itertools.combinations(keys, 2). -/
def pairsOf : List String → List (String × String)
  | [] => []
  | x :: xs => xs.map (fun y => (x, y)) ++ pairsOf xs

/-- Indexing the character-to-scene-set map built by analyze_characters. -/
def findScenes (csm : List (String × Finset String)) (n : String) :
    Finset String :=
  match csm.find? (·.1 = n) with
  | some p => p.2
  | none => ∅

/-- Transliteration of CharacterAnalyzer._analyze_character_relationships
(lines 216-277), building the relationship matrix as a lookup function on
ordered name pairs.  For every unordered pair of map keys with nonempty
scene sets and a nonempty intersection, one entry is computed and written
under both orders of the pair.  The relationship-type detector
(_detect_relationship_type, a Python-regex proximity scan over the shared
scene text) is taken as a parameter: it is invoked once per pair, its
output stored verbatim in both mirrored entries, so every statement below
is proved for an arbitrary detector, in particular the one of the source. -/
def relUpdate (detect : String → String → String) (scenes : List Scene)
    (csm : List (String × Finset String))
    (m : String → String → Option RelEntry) (p : String × String) :
    String → String → Option RelEntry :=
  let s1 := findScenes csm p.1
  let s2 := findScenes csm p.2
  if s1 = ∅ ∨ s2 = ∅ then m
  else
    let shared := s1 ∩ s2
    if shared = ∅ then m
    else
      let co := coOccurrence s1 s2
      let di := dialogueInteraction p.1 p.2 scenes shared
      let strength := 7 / 10 * co + 3 / 10 * di
      let e : RelEntry :=
        { strength := round2 strength
          co_occurrence := round2 co
          dialogue_interaction := round2 di
          shared_scenes := shared
          relationship_type := detect p.1 p.2 }
      fun a b =>
        if a = p.1 ∧ b = p.2 then some e
        else if a = p.2 ∧ b = p.1 then some e
        else m a b

/-- The whole pair loop of _analyze_character_relationships. -/
def buildMatrix (detect : String → String → String) (scenes : List Scene)
    (csm : List (String × Finset String)) :
    String → String → Option RelEntry :=
  (pairsOf (csm.map (·.1))).foldl (relUpdate detect scenes csm) (fun _ _ => none)

/-- The guarded scene-presence fraction of
CharacterAnalyzer._calculate_character_importance (line 414). -/
def scenePresenceFrac (sceneCount totalScenes : Nat) : ℚ :=
  if 0 < totalScenes then (sceneCount : ℚ) / (totalScenes : ℚ) else 0

/-- The guarded relationship-centrality fraction (line 423). -/
def relationshipCentrality (relationshipCount totalCharacters : Nat) : ℚ :=
  if 1 < totalCharacters then
    (relationshipCount : ℚ) / ((totalCharacters : ℚ) - 1)
  else 0

/-- The minimum of int(s) over the numeric scene identifiers of a
character, modelling "min(int(s) if s.isdigit() else float(inf) ...)"
(line 430): none when no identifier is numeric (the minimum is infinite). -/
def minDigitVal (l : List String) : Option Nat :=
  l.foldl
    (fun acc s =>
      if isDigits s then
        match acc with
        | none => some (digitsVal s.data)
        | some a => some (min a (digitsVal s.data))
      else acc)
    none

/-- Transliteration of CharacterAnalyzer._calculate_character_importance
(lines 391-446) in the Option monad: none models the ZeroDivisionError
that Python would raise in the name-prominence division
first_scene / (total_scenes * 2) when the character has scenes but
total_scenes is zero; every other division is guarded in the source.
When no scene identifier is numeric the minimum is infinite and the
clamped name prominence is 0 (1 - inf = -inf, max with 0).
(The except ValueError fallback of the source is unreachable for the
ASCII scene numbers modelled here.) -/
def importanceScore (charScenes : List String)
    (word_count relationship_count totalScenes totalCharacters : Nat) :
    Option ℚ :=
  let scene_presence := scenePresenceFrac charScenes.length totalScenes
  let dialogue_volume : ℚ := min ((word_count : ℚ) / 5000) 1
  let relationship_centrality :=
    relationshipCentrality relationship_count totalCharacters
  let npOpt : Option ℚ :=
    match charScenes with
    | [] => some 0
    | _ :: _ =>
      if totalScenes = 0 then none
      else some (match minDigitVal charScenes with
        | none => 0
        | some m => max (1 - (m : ℚ) / ((totalScenes : ℚ) * 2)) 0)
  npOpt.map fun name_prominence =>
    round2 (min (max
      (scene_presence * (4 / 10) + dialogue_volume * (3 / 10) +
        relationship_centrality * (2 / 10) + name_prominence * (1 / 10)) 0) 1)

/-! ### Scene analyzer: complexity score and densities
(script_analysis/scene_analyzer.py) -/

/-- The guarded dialogue density of SceneAnalyzer.analyze_scene
(line 110): dialogue lines over total lines, 0 for an empty scene.
The action density (line 111) has the same shape with the arguments
swapped. -/
def dialogueDensity (dialogueLines actionLines : Nat) : ℚ :=
  if 0 < dialogueLines + actionLines then
    (dialogueLines : ℚ) / ((dialogueLines : ℚ) + (actionLines : ℚ))
  else 0

/-- The guarded action density of SceneAnalyzer.analyze_scene
(line 111). -/
def actionDensity (dialogueLines actionLines : Nat) : ℚ :=
  if 0 < dialogueLines + actionLines then
    (actionLines : ℚ) / ((dialogueLines : ℚ) + (actionLines : ℚ))
  else 0

/-- Transliteration of SceneAnalyzer._calculate_complexity_score
(lines 205-243): character and special-element counts normalised by 10 and
capped at 1, weighted sum with the fixed complexity_factors weights,
clamped to the unit interval and rounded to 2 decimals. -/
def complexityScore (character_count : Nat)
    (dialogue_density action_density : ℚ) (special_elements : Nat)
    (location_complexity time_complexity : ℚ) : ℚ :=
  let character_factor := min ((character_count : ℚ) / 10) 1
  let special_factor := min ((special_elements : ℚ) / 10) 1
  let complexity :=
    character_factor * (2 / 10) + dialogue_density * (15 / 100) +
    action_density * (15 / 100) + special_factor * (2 / 10) +
    location_complexity * (15 / 100) + time_complexity * (15 / 100)
  round2 (min (max complexity 0) 1)

/-! ### Element extractor: importance fraction and deduplication
(script_analysis/element_extractor.py) -/

/-- The guarded element-importance fraction of
ElementExtractor.extract_elements (lines 65-66 and 82): occurrence count
over scene count, 0 when the scenes list is empty. -/
def elementImportanceFrac (occCount : Nat) (scenes : List Scene) : ℚ :=
  if scenes.isEmpty then 0 else (occCount : ℚ) / (scenes.length : ℚ)

/-- An extracted element as handled by
ElementExtractor._deduplicate_elements: only the fields the deduplication
reads or writes are modelled; the occurrence entries (ints for numeric
scene numbers, strings otherwise) are a type parameter. -/
structure Element (α : Type) where
  name : String
  occurrences : List α
  context : Option String
  importance : Option ℚ
deriving DecidableEq

/-- Occurrence-list merge (lines 334-336): append each new occurrence not
already present. -/
def mergeOcc {α : Type} [DecidableEq α] (old new : List α) : List α :=
  new.foldl (fun acc o => if o ∈ acc then acc else acc ++ [o]) old

/-- Merge a new element into the one stored under its lowercased name
(lines 333-340): union the occurrences, and replace the context when the
incoming one is strictly longer. -/
def mergeInto {α : Type} [DecidableEq α] (old new : Element α) : Element α :=
  let old1 := { old with occurrences := mergeOcc old.occurrences new.occurrences }
  if (old1.context.getD "").length < (new.context.getD "").length then
    { old1 with context := new.context }
  else old1

/-- One iteration of the deduplication loop (lines 330-342): the map is an
insertion-ordered association list keyed by the lowercased name. -/
def insertElem {α : Type} [DecidableEq α]
    (m : List (String × Element α)) (e : Element α) :
    List (String × Element α) :=
  let key := pyLower e.name
  if m.any (·.1 = key) then
    m.map fun p => if p.1 = key then (p.1, mergeInto p.2 e) else p
  else m ++ [(key, e)]

/-- The importance backfill of the deduplication (lines 345-347): elements
without an importance get occurrence count over 10. -/
def setImportance {α : Type} (e : Element α) : Element α :=
  match e.importance with
  | some _ => e
  | none => { e with importance := some ((e.occurrences.length : ℚ) / 10) }

/-- Transliteration of ElementExtractor._deduplicate_elements
(lines 318-349). -/
def dedupElements {α : Type} [DecidableEq α] (es : List (Element α)) :
    List (Element α) :=
  ((es.foldl insertElem []).map fun p => setImportance p.2)

/-! ## Theorems -/

/-! ### C4: scene-heading classifier -/

/-- The classifier of the source agrees everywhere with the amended
description (case-sensitive prefixes, second segment only as time of
day). -/
theorem extractSceneHeading_eq_amended (line : String) :
    extractSceneHeading line = extractSceneHeadingAmended line := by
  unfold extractSceneHeading extractSceneHeadingAmended
  by_cases h1 : pyStartsWith "INT." (pyStrip line) <;>
    by_cases h2 : pyStartsWith "EXT." (pyStrip line) <;>
      by_cases h3 : pyStartsWith "INT/EXT." (pyStrip line) <;>
        by_cases h4 : pyStartsWith "I/E." (pyStrip line) <;>
          simp [h1, h2, h3, h4, List.find?] <;> split <;> simp_all

/-- C4: corrected.  The prefix recognition of extract_scene_heading is
case-SENSITIVE (the lowercase line "int. KITCHEN - NIGHT" yields a null
interior/exterior marker), and when the remainder contains several " - "
separators only the second segment becomes the time of day (the remaining
segments are discarded, not joined).  With those two amendments the claim
holds, including both example evaluations. -/
theorem C4_extract_scene_heading :
    (∀ line, extractSceneHeading line = extractSceneHeadingAmended line) ∧
    extractSceneHeading "INT. KITCHEN - NIGHT" =
      (some "INT", some "KITCHEN", some "NIGHT") ∧
    extractSceneHeading "EXT. PARK" = (some "EXT", some "PARK", none) := by
  refine ⟨extractSceneHeading_eq_amended, by decide, by decide⟩

/-- C4, counterexample to the claim as stated: the prefix match is not
case-insensitive (a lowercase prefix is not consumed and yields a null
marker), and the segments after the first separator are not joined (the
third segment of "INT. A - B - C" is dropped). -/
theorem C4_counterexample :
    (extractSceneHeading "int. KITCHEN - NIGHT").1 = none ∧
    (extractSceneHeading "int. KITCHEN - NIGHT").2.1 = some "int. KITCHEN" ∧
    (extractSceneHeading "INT. A - B - C").2.2 = some "B" ∧
    some "B" ≠ some "B - C" := by
  refine ⟨by decide, by decide, by decide, by decide⟩

/-! ### C8: format detector -/

/-- C8: confirmed.  The format detector of the source agrees everywhere
with the specified rule: extension first (.fountain/.spmd, .pdf, .fdx,
case-insensitively), then content sniffing of the first 1000 characters
(XML header plus FinalDraft root tag gives FinalDraft, a scene-heading
token plus a transition token gives Fountain, anything else PlainText). -/
theorem C8_detect_format (suffix content : String) :
    detectFormat suffix content = detectFormatSpec suffix content := by
  unfold detectFormat detectFormatSpec
  by_cases hx : pyContains "<?xml" (strTake 1000 content) &&
      pyContains "<FinalDraft" (strTake 1000 content) <;>
    by_cases hi : pyContains "INT." (strTake 1000 content) ||
        pyContains "EXT." (strTake 1000 content) <;>
      by_cases hf : pyContains "FADE IN:" (strTake 1000 content) ||
          pyContains "CUT TO:" (strTake 1000 content) <;>
        simp [hx, hi, hf]

/-! ### C1: end-to-end scenario -/

/-- C1: corrected.  On the four-line input the parser produces one Scene
with scene number "1", marker INT, location ROOM, time of day DAY, and one
Character JOHN with dialogue_count 1 — but the line "JOHN walks to the
door." is consumed as a dialogue continuation (nothing has ended dialogue
mode), so JOHN's word count is 7, the action list is empty, and the open
dialogue block (holding both lines) is discarded at end of input, leaving
the scene's dialogue list empty. -/
theorem C1_end_to_end :
    parseFountain "INT. ROOM - DAY\nJOHN\nHello there.\nJOHN walks to the door." =
      { scenes := [{ scene_number := "1"
                     slug_line := "INT. ROOM - DAY"
                     page_number := 1
                     int_ext := some "INT"
                     location := some "ROOM"
                     time_of_day := some "DAY"
                     content := "INT. ROOM - DAY\nHello there.\nJOHN walks to the door.\n"
                     characters := ["JOHN"]
                     dialogue := []
                     action := [] }]
        characters := [{ name := "JOHN", dialogue_count := 1, word_count := 7
                         scenes := ["1"] }] } := by decide

/-- C1, counterexample to the claim as stated: on the four-line input
JOHN's word count is not 2, the action line does not reach the action
list, and the dialogue block does not reach the scene. -/
theorem C1_counterexample :
    (parseFountain "INT. ROOM - DAY\nJOHN\nHello there.\nJOHN walks to the door.").characters.map
        (fun c => c.word_count) ≠ [2] ∧
    (parseFountain "INT. ROOM - DAY\nJOHN\nHello there.\nJOHN walks to the door.").scenes.map
        (fun s => s.action) ≠ [["JOHN walks to the door."]] ∧
    (parseFountain "INT. ROOM - DAY\nJOHN\nHello there.\nJOHN walks to the door.").scenes.map
        (fun s => s.dialogue) ≠
      [[{ character := "JOHN", lines := ["Hello there."], parentheticals := [] }]] := by
  refine ⟨by decide, by decide, by decide⟩

/-! ### Rounding bounds -/

theorem floor_le_bankersRound (x : ℚ) : ⌊x⌋ ≤ bankersRound x := by
  unfold bankersRound
  split_ifs <;> omega

theorem bankersRound_le_ceil (x : ℚ) : bankersRound x ≤ ⌈x⌉ := by
  have hfc : ⌊x⌋ ≤ ⌈x⌉ := Int.floor_le_ceil x
  have key : ¬x - ⌊x⌋ < 1 / 2 → ⌊x⌋ + 1 ≤ ⌈x⌉ := by
    intro h
    have h0 : (1 : ℚ) / 2 ≤ x - ⌊x⌋ := not_lt.mp h
    have hlt : (⌊x⌋ : ℚ) < x := by linarith
    have hq : (⌊x⌋ : ℚ) < (⌈x⌉ : ℚ) := lt_of_lt_of_le hlt (Int.le_ceil x)
    have hz : ⌊x⌋ < ⌈x⌉ := by exact_mod_cast hq
    omega
  unfold bankersRound
  split_ifs with h1 h2 h3
  · exact hfc
  · exact key h1
  · exact hfc
  · exact key h1

theorem round2_bounds (q : ℚ) (h0 : 0 ≤ q) (h1 : q ≤ 1) :
    0 ≤ round2 q ∧ round2 q ≤ 1 := by
  have hb1 : (0 : ℤ) ≤ bankersRound (q * 100) := by
    have hf : (0 : ℤ) ≤ ⌊q * 100⌋ := Int.floor_nonneg.mpr (by positivity)
    exact hf.trans (floor_le_bankersRound _)
  have hb2 : bankersRound (q * 100) ≤ 100 := by
    have hc : ⌈q * 100⌉ ≤ 100 := Int.ceil_le.mpr (by push_cast; linarith)
    exact (bankersRound_le_ceil _).trans hc
  constructor
  · unfold round2
    have : (0 : ℚ) ≤ (bankersRound (q * 100) : ℚ) := by exact_mod_cast hb1
    positivity
  · unfold round2
    rw [div_le_one (by norm_num)]
    exact_mod_cast hb2

/-- The clamp-then-round pattern shared by the complexity and importance
scores always lands in the unit interval. -/
theorem round2_clamp_bounds (c : ℚ) :
    0 ≤ round2 (min (max c 0) 1) ∧ round2 (min (max c 0) 1) ≤ 1 :=
  round2_bounds _ (le_min (le_max_right _ _) zero_le_one) (min_le_right _ _)

theorem bankersRound_intCast (n : ℤ) : bankersRound (n : ℚ) = n := by
  unfold bankersRound
  rw [Int.floor_intCast]
  norm_num

theorem round2_of_mul_eq (q : ℚ) (n : ℤ) (h : q * 100 = (n : ℚ)) :
    round2 q = (n : ℚ) / 100 := by
  rw [round2, h, bankersRound_intCast]

/-! ### C7: score bounds -/

/-- A scene whose dialogue list alternates ALICE, BOB, ALICE: two
adjacent alternating pairs, but BOB speaks only once. -/
def exScene : Scene :=
  { scene_number := "1", slug_line := "INT. A", page_number := 1
    int_ext := some "INT", location := some "A", time_of_day := none
    content := "", characters := ["ALICE", "BOB"]
    dialogue := [{ character := "ALICE", lines := ["One"], parentheticals := [] },
                 { character := "BOB", lines := ["Two"], parentheticals := [] },
                 { character := "ALICE", lines := ["Three"], parentheticals := [] }]
    action := [] }

/-- The character-to-scene-set map in which both characters of the
example appear exactly in the example scene. -/
def exMap : List (String × Finset String) := [("ALICE", {"1"}), ("BOB", {"1"})]

theorem exScene_interaction :
    dialogueInteraction "ALICE" "BOB" [exScene] {"1"} = 2 := by
  have h : interactionStats "ALICE" "BOB" [exScene] {"1"} = (2, 1) := by decide
  simp only [dialogueInteraction, h]
  norm_num

theorem exScene_coOccurrence : coOccurrence {"1"} {"1"} = 1 := by
  have h1 : (({"1"} : Finset String) ∩ {"1"}).card = 1 := by decide
  have h2 : (({"1"} : Finset String) ∪ {"1"}).card = 1 := by decide
  rw [coOccurrence, h1, h2]
  norm_num

theorem exScene_matrix :
    buildMatrix (fun _ _ => "associates") [exScene] exMap "ALICE" "BOB" =
      some { strength := 13 / 10, co_occurrence := 1, dialogue_interaction := 2
             shared_scenes := {"1"}, relationship_type := "associates" } := by
  have hfa : findScenes exMap "ALICE" = {"1"} := by decide
  have hfb : findScenes exMap "BOB" = {"1"} := by decide
  have hint : (({"1"} : Finset String) ∩ {"1"}) = {"1"} := by decide
  have hpair : pairsOf (exMap.map (·.1)) = [("ALICE", "BOB")] := by decide
  have hne : ¬(({"1"} : Finset String) = ∅ ∨ ({"1"} : Finset String) = ∅) := by decide
  have hsh : ¬(({"1"} : Finset String) = ∅) := by decide
  unfold buildMatrix
  rw [hpair]
  simp only [List.foldl_cons, List.foldl_nil, relUpdate, hfa, hfb, hint, if_neg hne,
    if_neg hsh, exScene_coOccurrence, exScene_interaction]
  norm_num
  rw [round2_of_mul_eq _ 130 (by norm_num), round2_of_mul_eq _ 100 (by norm_num),
    round2_of_mul_eq _ 200 (by norm_num)]
  norm_num

/-- C7, counterexample to the claim as stated: on a scene whose dialogue
alternates ALICE, BOB, ALICE the dialogue-interaction ratio is 2 (two
alternating adjacencies divided by the single BOB turn), exceeding 1, and
the stored relationship strength 0.7 x 1 + 0.3 x 2 = 1.3 exceeds 1 as
well. -/
theorem C7_counterexample :
    ¬dialogueInteraction "ALICE" "BOB" [exScene] {"1"} ≤ 1 ∧
    ¬(∀ e : RelEntry,
        buildMatrix (fun _ _ => "associates") [exScene] exMap "ALICE" "BOB" = some e →
          e.strength ≤ 1) := by
  constructor
  · rw [exScene_interaction]; norm_num
  · intro h
    have := h _ exScene_matrix
    norm_num at this

/-- C7: corrected.  The clamped scores are indeed always in the unit
interval: the complexity score (with the character factor capped at 1
even for 50 characters), the importance score whenever it is defined, and
the Jaccard co-occurrence.  The dialogue-interaction score is nonnegative
but NOT bounded by 1 — it reaches 2 on the alternating example scene —
and consequently the combined strength reaches 1.3 there. -/
theorem C7_score_bounds :
    (∀ (cc : Nat) (dd ad : ℚ) (se : Nat) (lc tc : ℚ),
        0 ≤ complexityScore cc dd ad se lc tc ∧ complexityScore cc dd ad se lc tc ≤ 1) ∧
    (∀ (cs : List String) (wc rc N C : Nat) (v : ℚ),
        importanceScore cs wc rc N C = some v → 0 ≤ v ∧ v ≤ 1) ∧
    (∀ s1 s2 : Finset String, 0 ≤ coOccurrence s1 s2 ∧ coOccurrence s1 s2 ≤ 1) ∧
    (∀ (c1 c2 : String) (scenes : List Scene) (shared : Finset String),
        0 ≤ dialogueInteraction c1 c2 scenes shared) ∧
    dialogueInteraction "ALICE" "BOB" [exScene] {"1"} = 2 ∧
    (buildMatrix (fun _ _ => "associates") [exScene] exMap "ALICE" "BOB").map
        RelEntry.strength = some (13 / 10) := by
  refine ⟨?_, ?_, ?_, ?_, exScene_interaction, ?_⟩
  · intro cc dd ad se lc tc
    exact round2_clamp_bounds _
  · intro cs wc rc N C v h
    unfold importanceScore at h
    rw [Option.map_eq_some'] at h
    obtain ⟨np, _, hv⟩ := h
    exact hv ▸ round2_clamp_bounds _
  · intro s1 s2
    constructor
    · exact div_nonneg (by positivity) (by positivity)
    · rcases Nat.eq_zero_or_pos (s1 ∪ s2).card with h | h
      · rw [coOccurrence, h]
        norm_num
      · rw [coOccurrence, div_le_one (by exact_mod_cast h)]
        exact_mod_cast Finset.card_le_card
          ((Finset.inter_subset_left).trans Finset.subset_union_left)
  · intro c1 c2 scenes shared
    unfold dialogueInteraction
    split
    · exact le_refl 0
    · positivity
  · rw [exScene_matrix]
    rfl

/-- C7, witness: a concrete defined importance score (character in scene
"A", 1 scene, 1 character) evaluates to 2/5 and the bound theorem applies
to it. -/
theorem C7_witness : 0 ≤ (2 / 5 : ℚ) ∧ (2 / 5 : ℚ) ≤ 1 := by
  have h : importanceScore ["A"] 0 0 1 1 = some (2 / 5) := by
    have hm : minDigitVal ["A"] = none := by decide
    simp [importanceScore, scenePresenceFrac, relationshipCentrality, hm]
    rw [show (((4 : ℚ) / 10 ⊔ 0) ⊓ 1) = 2 / 5 by norm_num]
    rw [round2_of_mul_eq _ 40 (by norm_num)]
    norm_num
  exact C7_score_bounds.2.1 ["A"] 0 0 1 1 (2 / 5) h

/-! ### C9: guarded divisions -/

/-- C9: confirmed.  Every division of the cited analysis code is guarded:
the importance score is defined (no ZeroDivisionError) on every input a
parse can produce (a character with a nonempty scene list only exists
when the script has scenes); the scene-presence fraction is 0 for zero
scenes; the relationship centrality is 0 for zero or one character; the
dialogue and action densities are 0 for a scene with no dialogue and no
action lines; the element-importance fraction is 0 for an empty scene
list. -/
theorem C9_division_guards :
    (∀ (cs : List String) (wc rc N C : Nat),
        (cs = [] ∨ 0 < N) → (importanceScore cs wc rc N C).isSome = true) ∧
    (∀ k, scenePresenceFrac k 0 = 0) ∧
    (∀ rc, relationshipCentrality rc 0 = 0 ∧ relationshipCentrality rc 1 = 0) ∧
    dialogueDensity 0 0 = 0 ∧ actionDensity 0 0 = 0 ∧
    (∀ k, elementImportanceFrac k [] = 0) := by
  refine ⟨?_, ?_, ?_, by simp [dialogueDensity], by simp [actionDensity], ?_⟩
  · intro cs wc rc N C h
    match cs, h with
    | [], _ => simp [importanceScore]
    | c :: t, Or.inl h => exact absurd h (by simp)
    | c :: t, Or.inr h => simp [importanceScore, Nat.pos_iff_ne_zero.mp h]
  · intro k
    simp [scenePresenceFrac]
  · intro rc
    constructor <;> simp [relationshipCentrality]
  · intro k
    simp [elementImportanceFrac]

/-- C9, witness: the guards evaluated at concrete degenerate inputs. -/
theorem C9_witness :
    (importanceScore ["1"] 0 0 1 5).isSome = true ∧
    scenePresenceFrac 3 0 = 0 ∧
    relationshipCentrality 4 0 = 0 ∧ relationshipCentrality 4 1 = 0 ∧
    dialogueDensity 0 0 = 0 ∧ actionDensity 0 0 = 0 ∧
    elementImportanceFrac 7 [] = 0 :=
  ⟨C9_division_guards.1 ["1"] 0 0 1 5 (Or.inr (by norm_num)),
   C9_division_guards.2.1 3,
   (C9_division_guards.2.2.1 4).1, (C9_division_guards.2.2.1 4).2,
   C9_division_guards.2.2.2.1, C9_division_guards.2.2.2.2.1,
   C9_division_guards.2.2.2.2.2 7⟩

/-! ### C5: relationship symmetry -/

/-- A single pair update writes the same entry under both orders of the
pair and hence preserves symmetry of the matrix. -/
theorem relUpdate_symm (detect : String → String → String) (scenes : List Scene)
    (csm : List (String × Finset String))
    (m : String → String → Option RelEntry) (p : String × String)
    (hm : ∀ a b, m a b = m b a) (a b : String) :
    relUpdate detect scenes csm m p a b = relUpdate detect scenes csm m p b a := by
  simp only [relUpdate]
  split_ifs with h1 h2
  · exact hm a b
  · exact hm a b
  · by_cases g1 : a = p.1 <;> by_cases g2 : b = p.2 <;>
      by_cases g3 : a = p.2 <;> by_cases g4 : b = p.1 <;>
        simp [g1, g2, g3, g4, hm a b] <;> exact hm _ _

/-- Folding pair updates over any pair list preserves symmetry. -/
theorem foldl_relUpdate_symm (detect : String → String → String)
    (scenes : List Scene) (csm : List (String × Finset String)) :
    ∀ (ps : List (String × String)) (m : String → String → Option RelEntry),
      (∀ a b, m a b = m b a) →
      ∀ a b, (ps.foldl (relUpdate detect scenes csm) m) a b =
        (ps.foldl (relUpdate detect scenes csm) m) b a := by
  intro ps
  induction ps with
  | nil => intro m hm a b; exact hm a b
  | cons p t ih =>
    intro m hm a b
    exact ih _ (relUpdate_symm detect scenes csm m p hm) a b

/-- C5: confirmed.  For every character-to-scene-set map, every scene
list and every relationship-type detector, the relationship matrix built
by _analyze_character_relationships is perfectly symmetric: the entry
under (A, B) equals the entry under (B, A) — in particular strength,
co_occurrence, dialogue_interaction, relationship_type agree and the
shared-scene sets are identical — and a pair has an entry in one order
exactly when it has one in the other. -/
theorem C5_relationship_symmetry (detect : String → String → String)
    (scenes : List Scene) (csm : List (String × Finset String)) (A B : String) :
    buildMatrix detect scenes csm A B = buildMatrix detect scenes csm B A := by
  unfold buildMatrix
  exact foldl_relUpdate_symm detect scenes csm (pairsOf (csm.map (·.1)))
    (fun _ _ => none) (fun _ _ => rfl) A B

/-! ### C6: deduplication -/

section Dedup

variable {α : Type}

theorem mergeInto_name [DecidableEq α] (old new : Element α) :
    (mergeInto old new).name = old.name := by
  simp only [mergeInto]
  split_ifs <;> rfl

theorem setImportance_name (e : Element α) : (setImportance e).name = e.name := by
  cases h : e.importance <;> simp [setImportance, h]

theorem setImportance_isSome (e : Element α) :
    (setImportance e).importance.isSome = true := by
  cases h : e.importance <;> simp [setImportance, h]

theorem setImportance_of_isSome (e : Element α)
    (h : e.importance.isSome = true) : setImportance e = e := by
  cases hi : e.importance
  · rw [hi] at h; cases h
  · simp [setImportance, hi]

/-- Invariant of the deduplication map: its keys are pairwise distinct
and each key is the lowercased name of the stored element. -/
def keyInv (m : List (String × Element α)) : Prop :=
  (m.map Prod.fst).Nodup ∧ ∀ p ∈ m, p.1 = pyLower p.2.name

theorem insertElem_keyInv [DecidableEq α] (m : List (String × Element α))
    (e : Element α) (h : keyInv m) : keyInv (insertElem m e) := by
  obtain ⟨h1, h2⟩ := h
  simp only [insertElem]
  split_ifs with hin
  · constructor
    · have hkeys : (m.map fun p =>
          if p.1 = pyLower e.name then (p.1, mergeInto p.2 e) else p).map Prod.fst =
          m.map Prod.fst := by
        rw [List.map_map]
        exact List.map_congr_left fun p _ => by
          simp only [Function.comp_apply]
          split <;> rfl
      rw [hkeys]; exact h1
    · intro q hq
      rw [List.mem_map] at hq
      obtain ⟨p, hp, rfl⟩ := hq
      split
      · simp only
        rw [h2 p hp, mergeInto_name]
      · exact h2 p hp
  · have hnot : pyLower e.name ∉ m.map Prod.fst := by
      simp only [List.any_eq_true, decide_eq_true_eq] at hin
      intro hmem
      rw [List.mem_map] at hmem
      obtain ⟨p, hp, hpk⟩ := hmem
      exact hin ⟨p, hp, hpk⟩
    constructor
    · rw [List.map_append]
      rw [List.nodup_append]
      refine ⟨h1, List.nodup_singleton _, ?_⟩
      intro x hx hx2
      simp only [List.map_cons, List.map_nil, List.mem_singleton] at hx2
      exact hnot (hx2 ▸ hx)
    · intro q hq
      rw [List.mem_append] at hq
      rcases hq with hq | hq
      · exact h2 q hq
      · simp only [List.mem_singleton] at hq
        rw [hq]

theorem foldl_insertElem_keyInv [DecidableEq α] (es : List (Element α)) :
    ∀ m : List (String × Element α), keyInv m → keyInv (es.foldl insertElem m) := by
  induction es with
  | nil => intro m h; exact h
  | cons e t ih => intro m h; exact ih _ (insertElem_keyInv m e h)

/-- When the lowercased names are pairwise fresh, every insertion appends
and the fold is just a relabelling. -/
theorem foldl_insertElem_of_fresh [DecidableEq α] (es : List (Element α)) :
    ∀ m : List (String × Element α),
      (es.map fun e => pyLower e.name).Nodup →
      (∀ e ∈ es, pyLower e.name ∉ m.map Prod.fst) →
      es.foldl insertElem m = m ++ es.map fun e => (pyLower e.name, e) := by
  induction es with
  | nil => intro m _ _; simp
  | cons e t ih =>
    intro m hnd hfresh
    have hany : m.any (·.1 = pyLower e.name) = false := by
      rw [List.any_eq_false]
      intro p hp
      simp only [decide_eq_true_eq]
      intro hpk
      exact hfresh e (List.mem_cons_self e t) (List.mem_map.mpr ⟨p, hp, hpk⟩)
    have hstep : insertElem m e = m ++ [(pyLower e.name, e)] := by
      unfold insertElem
      rw [if_neg (by rw [hany]; simp)]
    rw [List.foldl_cons, hstep]
    rw [List.map_cons] at hnd
    have hnd' := (List.nodup_cons.mp hnd).2
    have hhd := (List.nodup_cons.mp hnd).1
    rw [ih (m ++ [(pyLower e.name, e)]) hnd' ?_]
    · simp
    · intro e' he'
      rw [List.map_append, List.mem_append]
      rintro (hc | hc)
      · exact hfresh e' (List.mem_cons_of_mem e he') hc
      · simp only [List.map_cons, List.map_nil, List.mem_singleton] at hc
        exact hhd (hc ▸ List.mem_map_of_mem (fun x => pyLower x.name) he')

theorem dedupElements_keys [DecidableEq α] (es : List (Element α)) :
    ((dedupElements es).map fun e => pyLower e.name).Nodup := by
  have hinv := foldl_insertElem_keyInv es ([] : List (String × Element α))
    ⟨List.nodup_nil, by simp⟩
  have hlow : ((dedupElements es).map fun e => pyLower e.name) =
      (es.foldl insertElem []).map Prod.fst := by
    unfold dedupElements
    rw [List.map_map]
    exact List.map_congr_left fun p hp => by
      simp only [Function.comp_apply]
      rw [setImportance_name, (hinv.2 p hp).symm]
  rw [hlow]
  exact hinv.1

theorem dedupElements_importance [DecidableEq α] (es : List (Element α)) :
    ∀ e ∈ dedupElements es, e.importance.isSome = true := by
  intro e he
  unfold dedupElements at he
  rw [List.mem_map] at he
  obtain ⟨p, _, rfl⟩ := he
  exact setImportance_isSome _

/-- Deduplication is a projection: applied to its own output it is the
identity. -/
theorem dedupElements_idem [DecidableEq α] (es : List (Element α)) :
    dedupElements (dedupElements es) = dedupElements es := by
  have hfold := foldl_insertElem_of_fresh (dedupElements es)
    ([] : List (String × Element α)) (dedupElements_keys es) (by simp)
  calc dedupElements (dedupElements es)
      = (((dedupElements es).foldl insertElem []).map fun p => setImportance p.2) := rfl
    _ = (((dedupElements es).map fun e => (pyLower e.name, e)).map
          fun p => setImportance p.2) := by rw [hfold]; simp
    _ = (dedupElements es).map fun e => setImportance e := by
          rw [List.map_map]; rfl
    _ = dedupElements es := by
          rw [List.map_congr_left
            (fun e he => setImportance_of_isSome e (dedupElements_importance es e he))]
          exact List.map_id _

end Dedup

/-- C6: confirmed.  Element deduplication is idempotent — its output is a
fixed point — and two elements of the same type whose names agree up to
case are merged into one element keeping the first spelling, with the
occurrence lists unioned in order, the longer context string kept, and
the importance backfilled as the occurrence count over 10. -/
theorem C6_dedup :
    (∀ (α : Type) (_inst : DecidableEq α) (es : List (Element α)),
        dedupElements (dedupElements es) = dedupElements es) ∧
    dedupElements
        [{ name := "Gun", occurrences := [(1 : ℤ)], context := some "a Gun"
           importance := none },
         { name := "gun", occurrences := [(2 : ℤ)]
           context := some "he drops the gun on the floor", importance := none }] =
      [{ name := "Gun", occurrences := [(1 : ℤ), 2]
         context := some "he drops the gun on the floor"
         importance := some (2 / 10) }] := by
  constructor
  · intro α _inst es
    exact dedupElements_idem es
  · have h : ([{ name := "Gun", occurrences := [(1 : ℤ)], context := some "a Gun"
                 importance := none },
        { name := "gun", occurrences := [(2 : ℤ)]
          context := some "he drops the gun on the floor",
          importance := none }].foldl insertElem []) =
        [("gun", { name := "Gun", occurrences := [(1 : ℤ), 2]
                   context := some "he drops the gun on the floor"
                   importance := none })] := by decide
    show (List.map _ _) = _
    rw [h]
    simp [setImportance]

/-! ### Parser observables -/

/-- The dialogue blocks already owned by some scene of the state (the
still-open current_dialogue block is pending, not owned). -/
def dialogueBlocks (st : PState) : List Dialogue :=
  ((flushScenes st).map (·.dialogue)).flatten

/-- The scene numbers of all scenes of the state, the open one included. -/
def sceneNums (st : PState) : List String :=
  (flushScenes st).map (·.scene_number)

/-- Whether a raw line is consumed by the scene-heading branch of the
parse loop. -/
def isHeadingLine (raw : String) : Bool :=
  !(pyStrip raw == "") && !isPageBreak (pyStrip raw) &&
    (matchesHeading (pyStrip raw) || pyStartsWith "." (pyStrip raw))

/-- Number of scene-heading lines of a line list. -/
def countHeadings (lines : List String) : Nat := lines.countP isHeadingLine

/-- A line free of the explicit scene-number marker character. -/
def hashFree (raw : String) : Prop := '#' ∉ (pyStrip raw).data

instance (raw : String) : Decidable (hashFree raw) :=
  inferInstanceAs (Decidable ('#' ∉ (pyStrip raw).data))

theorem hashIdxsFrom_eq_nil (l : List Char) (h : '#' ∉ l) :
    ∀ i, hashIdxsFrom i l = [] := by
  induction l with
  | nil => intro i; rfl
  | cons c t ih =>
    intro i
    have hc : ¬c = '#' := fun hc => h (hc ▸ List.mem_cons_self c t)
    simp only [hashIdxsFrom, if_neg hc]
    exact ih (fun hm => h (List.mem_cons_of_mem c hm)) (i + 1)

theorem findSceneNumber_eq_none (s : String) (h : '#' ∉ s.data) :
    findSceneNumber s = none := by
  simp only [findSceneNumber]
  rw [hashIdxsFrom_eq_nil s.data h 0]
  rfl

/-! ### The branches a step can take -/

theorem step_cases (st : PState) (raw : String) :
    (pyStrip raw = "" ∧ step st raw = st) ∨
    (pyStrip raw ≠ "" ∧ isPageBreak (pyStrip raw) = true ∧
      step st raw = { st with page := st.page + 1 }) ∨
    (pyStrip raw ≠ "" ∧ isPageBreak (pyStrip raw) = false ∧
      (matchesHeading (pyStrip raw) || pyStartsWith "." (pyStrip raw)) = true ∧
      step st raw = headingStep st (pyStrip raw)) ∨
    (pyStrip raw ≠ "" ∧ isPageBreak (pyStrip raw) = false ∧
      (matchesHeading (pyStrip raw) || pyStartsWith "." (pyStrip raw)) = false ∧
      st.in_dialogue = false ∧
      (isCueLine (pyStrip raw) && !pyStartsWith "!" (pyStrip raw)) = true ∧
      step st raw = cueStep st (pyStrip raw)) ∨
    (pyStrip raw ≠ "" ∧ isPageBreak (pyStrip raw) = false ∧
      (matchesHeading (pyStrip raw) || pyStartsWith "." (pyStrip raw)) = false ∧
      st.in_dialogue = true ∧ isParenLine (pyStrip raw) = true ∧
      step st raw = parenStep st (pyStrip raw)) ∨
    (pyStrip raw ≠ "" ∧ isPageBreak (pyStrip raw) = false ∧
      (matchesHeading (pyStrip raw) || pyStartsWith "." (pyStrip raw)) = false ∧
      st.in_dialogue = true ∧ isParenLine (pyStrip raw) = false ∧
      (∃ d, st.current_dialogue = some d ∧
        step st raw = dialogueStep st d (pyStrip raw))) ∨
    (pyStrip raw ≠ "" ∧ isPageBreak (pyStrip raw) = false ∧
      (matchesHeading (pyStrip raw) || pyStartsWith "." (pyStrip raw)) = false ∧
      ((st.in_dialogue = false ∧
          (isCueLine (pyStrip raw) && !pyStartsWith "!" (pyStrip raw)) = false) ∨
        (st.in_dialogue = true ∧ isParenLine (pyStrip raw) = false ∧
          st.current_dialogue = none)) ∧
      step st raw = fallbackStep st (pyStrip raw)) := by
  by_cases h1 : pyStrip raw = ""
  · exact Or.inl ⟨h1, by simp [step, h1]⟩
  cases h2 : isPageBreak (pyStrip raw) with
  | true => exact Or.inr (Or.inl ⟨h1, rfl, by simp [step, h1, h2]⟩)
  | false =>
  cases h3 : (matchesHeading (pyStrip raw) || pyStartsWith "." (pyStrip raw)) with
  | true =>
    exact Or.inr (Or.inr (Or.inl ⟨h1, rfl, rfl, by simp [step, h1, h2, h3]⟩))
  | false =>
  cases hid : st.in_dialogue with
  | false =>
    cases hc : (isCueLine (pyStrip raw) && !pyStartsWith "!" (pyStrip raw)) with
    | true =>
      refine Or.inr (Or.inr (Or.inr (Or.inl ⟨h1, rfl, rfl, rfl, rfl, ?_⟩)))
      have hc1 := (Bool.and_eq_true _ _).mp hc
      simp [step, h1, h2, h3, hid, hc1.1, hc1.2]
    | false =>
      refine Or.inr (Or.inr (Or.inr (Or.inr (Or.inr (Or.inr
        ⟨h1, rfl, rfl, Or.inl ⟨rfl, rfl⟩, ?_⟩)))))
      simp [step, h1, h2, h3, hid, hc, Bool.and_assoc]
  | true =>
    cases hp : isParenLine (pyStrip raw) with
    | true =>
      refine Or.inr (Or.inr (Or.inr (Or.inr (Or.inl ⟨h1, rfl, rfl, rfl, rfl, ?_⟩))))
      simp [step, h1, h2, h3, hid, hp]
    | false =>
      cases hd : st.current_dialogue with
      | some d =>
        refine Or.inr (Or.inr (Or.inr (Or.inr (Or.inr (Or.inl
          ⟨h1, rfl, rfl, rfl, rfl, d, rfl, ?_⟩)))))
        simp [step, h1, h2, h3, hid, hp, hd]
      | none =>
        refine Or.inr (Or.inr (Or.inr (Or.inr (Or.inr (Or.inr
          ⟨h1, rfl, rfl, Or.inr ⟨rfl, rfl, rfl⟩, ?_⟩)))))
        simp [step, h1, h2, h3, hid, hp, hd]

/-! ### Effects of the individual branches -/

theorem headingStep_dialogueBlocks (st : PState) (l : String) :
    dialogueBlocks (headingStep st l) = dialogueBlocks st := by
  unfold dialogueBlocks headingStep flushScenes
  cases st.current_scene <;> simp

theorem headingStep_len (st : PState) (l : String) :
    (flushScenes (headingStep st l)).length = (flushScenes st).length + 1 := by
  unfold headingStep flushScenes
  cases st.current_scene <;> simp

theorem headingStep_sceneNums (st : PState) (l : String) (h : '#' ∉ l.data) :
    sceneNums (headingStep st l) = sceneNums st ++ [natToStr st.counter] := by
  unfold sceneNums headingStep flushScenes
  rw [findSceneNumber_eq_none l h]
  cases st.current_scene <;> simp

theorem cueStep_sceneNums (st : PState) (l : String) :
    sceneNums (cueStep st l) = sceneNums st := by
  unfold sceneNums cueStep flushScenes
  cases st.current_scene with
  | none => simp
  | some sc => simp only [List.map_append]; split <;> simp

theorem cueStep_dialogueBlocks (st : PState) (l : String) :
    dialogueBlocks (cueStep st l) = dialogueBlocks st := by
  unfold dialogueBlocks cueStep flushScenes
  cases st.current_scene with
  | none => simp
  | some sc => simp only [List.map_append]; split <;> simp

theorem parenStep_sceneNums (st : PState) (l : String) :
    sceneNums (parenStep st l) = sceneNums st := by
  unfold parenStep
  cases st.current_dialogue <;> rfl

theorem parenStep_dialogueBlocks (st : PState) (l : String) :
    dialogueBlocks (parenStep st l) = dialogueBlocks st := by
  unfold parenStep
  cases st.current_dialogue <;> rfl

theorem parenStep_in_dialogue (st : PState) (l : String) :
    (parenStep st l).in_dialogue = st.in_dialogue := by
  unfold parenStep
  cases st.current_dialogue <;> rfl

theorem parenStep_current_isSome (st : PState) (l : String)
    (h : st.current_dialogue.isSome = true) :
    (parenStep st l).current_dialogue.isSome = true := by
  unfold parenStep
  cases hd : st.current_dialogue
  · rw [hd] at h; cases h
  · rfl

theorem parenStep_counter (st : PState) (l : String) :
    (parenStep st l).counter = st.counter := by
  unfold parenStep
  cases st.current_dialogue <;> rfl

theorem dialogueStep_sceneNums (st : PState) (d : Dialogue) (l : String) :
    sceneNums (dialogueStep st d l) = sceneNums st := by
  unfold sceneNums dialogueStep flushScenes
  cases st.current_scene <;> simp

theorem dialogueStep_dialogueBlocks (st : PState) (d : Dialogue) (l : String) :
    dialogueBlocks (dialogueStep st d l) = dialogueBlocks st := by
  unfold dialogueBlocks dialogueStep flushScenes
  cases st.current_scene <;> simp

theorem fallbackStep_flush (st : PState) (l : String) (d : Dialogue) (sc : Scene)
    (hd : st.current_dialogue = some d) (hs : st.current_scene = some sc) :
    dialogueBlocks (fallbackStep st l) = dialogueBlocks st ++ [d] ∧
    (fallbackStep st l).current_dialogue = none ∧
    sceneNums (fallbackStep st l) = sceneNums st ∧
    (fallbackStep st l).counter = st.counter ∧
    (fallbackStep st l).in_dialogue = false := by
  unfold fallbackStep dialogueBlocks sceneNums flushScenes
  rw [hd, hs]
  simp

theorem fallbackStep_preserve (st : PState) (l : String)
    (h : st.current_dialogue = none ∨ st.current_scene = none) :
    dialogueBlocks (fallbackStep st l) = dialogueBlocks st ∧
    (fallbackStep st l).current_dialogue = st.current_dialogue ∧
    sceneNums (fallbackStep st l) = sceneNums st ∧
    (fallbackStep st l).counter = st.counter ∧
    (fallbackStep st l).in_dialogue = false := by
  unfold fallbackStep dialogueBlocks sceneNums flushScenes
  rcases h with h | h
  · rw [h]
    cases hs : st.current_scene <;> simp
  · rw [h]
    cases hd : st.current_dialogue <;> simp

theorem dialogueStep_in_dialogue (st : PState) (d : Dialogue) (l : String) :
    (dialogueStep st d l).in_dialogue = st.in_dialogue := rfl

theorem dialogueStep_current_isSome (st : PState) (d : Dialogue) (l : String) :
    (dialogueStep st d l).current_dialogue.isSome = true := rfl

/-! ### C10: dialogue blocks reach a scene only through the fallback -/

/-- C10: confirmed.  First, in every step of the parse loop the scene-owned
dialogue blocks either stay exactly as they are, or — precisely in the
action-line fallback branch, i.e. on a non-blank, non-page-break,
non-heading, non-cue line processed with the in-dialogue flag clear — the
pending block is appended to the scene that is open at that moment.
Second, concretely: a block left open when a heading arrives lands in the
scene opened by that heading at its first action line ("Hello." spoken in
scene 1 ends up in scene 2); and a block still open at end of input
appears in no scene while the speaker's dialogue_count 1 and word_count 2
already include it. -/
theorem C10_flush_only_in_fallback :
    (∀ (st : PState) (raw : String),
      dialogueBlocks (step st raw) = dialogueBlocks st ∨
      (pyStrip raw ≠ "" ∧ isPageBreak (pyStrip raw) = false ∧
        (matchesHeading (pyStrip raw) || pyStartsWith "." (pyStrip raw)) = false ∧
        (isCueLine (pyStrip raw) && !pyStartsWith "!" (pyStrip raw)) = false ∧
        st.in_dialogue = false ∧
        ∃ d, st.current_dialogue = some d ∧
          dialogueBlocks (step st raw) = dialogueBlocks st ++ [d] ∧
          (step st raw).current_dialogue = none)) ∧
    (parseFountain "INT. A - DAY\nJOHN\nHello.\nEXT. B - NIGHT\nSome action here.").scenes.map
        (fun s => (s.scene_number, s.dialogue)) =
      [("1", []),
       ("2", [{ character := "JOHN", lines := ["Hello."], parentheticals := [] }])] ∧
    (parseFountain "INT. A - DAY\nJOHN\nHi there.").scenes.map (fun s => s.dialogue) =
      [[]] ∧
    (parseFountain "INT. A - DAY\nJOHN\nHi there.").characters.map
        (fun c => (c.name, c.dialogue_count, c.word_count)) = [("JOHN", 1, 2)] := by
  refine ⟨?_, by decide, by decide, by decide⟩
  intro st raw
  rcases step_cases st raw with ⟨_, he⟩ | ⟨_, _, he⟩ | ⟨_, _, _, he⟩ |
    ⟨_, _, _, _, _, he⟩ | ⟨_, _, _, _, _, he⟩ | ⟨_, _, _, _, _, d, _, he⟩ |
    ⟨h1, h2, h3, hcase, he⟩
  · exact Or.inl (by rw [he])
  · exact Or.inl (by rw [he]; rfl)
  · exact Or.inl (by rw [he]; exact headingStep_dialogueBlocks st _)
  · exact Or.inl (by rw [he]; exact cueStep_dialogueBlocks st _)
  · exact Or.inl (by rw [he]; exact parenStep_dialogueBlocks st _)
  · exact Or.inl (by rw [he]; exact dialogueStep_dialogueBlocks st d _)
  · rcases hcase with ⟨hid, hcue⟩ | ⟨_, _, hd⟩
    · cases hd : st.current_dialogue with
      | none =>
        exact Or.inl (by rw [he]; exact (fallbackStep_preserve st _ (Or.inl hd)).1)
      | some d =>
        cases hs : st.current_scene with
        | none =>
          exact Or.inl (by rw [he]; exact (fallbackStep_preserve st _ (Or.inr hs)).1)
        | some sc =>
          have hf := fallbackStep_flush st (pyStrip raw) d sc hd hs
          exact Or.inr ⟨h1, h2, h3, hcue, hid, d, hd ▸ rfl,
            by rw [he]; exact hf.1, by rw [he]; exact hf.2.1⟩
    · exact Or.inl (by rw [he]; exact (fallbackStep_preserve st _ (Or.inl hd)).1)

/-! ### C2: when a dialogue block closes -/

/-- C2: corrected.  A dialogue block is NOT closed by a blank line (blank
lines are skipped without touching the state), nor by a cue-shaped or
action-shaped line while the in-dialogue flag is set (any such non-heading
line is absorbed into the open block).  Dialogue mode ends only at a scene
heading, which leaves the block pending without appending it anywhere; the
pending block is appended — to the scene current at that later moment — by
the first fallback line processed with the flag clear; a block still
pending at end of input is dropped. -/
theorem C2_dialogue_closing :
    (∀ (st : PState) (raw : String), pyStrip raw = "" → step st raw = st) ∧
    (∀ (st : PState) (raw : String), st.in_dialogue = true →
      st.current_dialogue.isSome = true → pyStrip raw ≠ "" →
      isPageBreak (pyStrip raw) = false →
      (matchesHeading (pyStrip raw) || pyStartsWith "." (pyStrip raw)) = false →
      (step st raw).in_dialogue = true ∧
      (step st raw).current_dialogue.isSome = true ∧
      dialogueBlocks (step st raw) = dialogueBlocks st) ∧
    (∀ (st : PState) (raw : String), pyStrip raw ≠ "" →
      isPageBreak (pyStrip raw) = false →
      (matchesHeading (pyStrip raw) || pyStartsWith "." (pyStrip raw)) = true →
      (step st raw).in_dialogue = false ∧
      (step st raw).current_dialogue = st.current_dialogue ∧
      dialogueBlocks (step st raw) = dialogueBlocks st) ∧
    (∀ (st : PState) (raw : String) (d : Dialogue) (sc : Scene),
      st.in_dialogue = false → st.current_dialogue = some d →
      st.current_scene = some sc → pyStrip raw ≠ "" →
      isPageBreak (pyStrip raw) = false →
      (matchesHeading (pyStrip raw) || pyStartsWith "." (pyStrip raw)) = false →
      (isCueLine (pyStrip raw) && !pyStartsWith "!" (pyStrip raw)) = false →
      dialogueBlocks (step st raw) = dialogueBlocks st ++ [d] ∧
      (step st raw).current_dialogue = none) := by
  refine ⟨?_, ?_, ?_, ?_⟩
  · intro st raw h
    simp [step, h]
  · intro st raw hid hsome h1 h2 h3
    rcases step_cases st raw with ⟨hb, _⟩ | ⟨_, hpb, _⟩ | ⟨_, _, hh, _⟩ |
      ⟨_, _, _, hid2, _, _⟩ | ⟨_, _, _, _, _, he⟩ | ⟨_, _, _, _, _, d, _, he⟩ |
      ⟨_, _, _, hcase, he⟩
    · exact absurd hb h1
    · rw [hpb] at h2; cases h2
    · rw [hh] at h3; cases h3
    · rw [hid] at hid2; cases hid2
    · rw [he]
      exact ⟨(parenStep_in_dialogue st _).trans hid,
        parenStep_current_isSome st _ hsome, parenStep_dialogueBlocks st _⟩
    · rw [he]
      exact ⟨(dialogueStep_in_dialogue st d _).trans hid,
        dialogueStep_current_isSome st d _, dialogueStep_dialogueBlocks st d _⟩
    · rcases hcase with ⟨hid2, _⟩ | ⟨_, _, hd⟩
      · rw [hid] at hid2; cases hid2
      · rw [hd] at hsome; cases hsome
  · intro st raw h1 h2 h3
    rcases step_cases st raw with ⟨hb, _⟩ | ⟨_, hpb, _⟩ | ⟨_, _, _, he⟩ |
      ⟨_, _, hh, _, _, _⟩ | ⟨_, _, hh, _, _, _⟩ | ⟨_, _, hh, _, _, _, _, _⟩ |
      ⟨_, _, hh, _, _⟩
    · exact absurd hb h1
    · rw [hpb] at h2; cases h2
    · rw [he]
      exact ⟨rfl, rfl, headingStep_dialogueBlocks st _⟩
    · rw [hh] at h3; cases h3
    · rw [hh] at h3; cases h3
    · rw [hh] at h3; cases h3
    · rw [hh] at h3; cases h3
  · intro st raw d sc hid hd hs h1 h2 h3 hcue
    rcases step_cases st raw with ⟨hb, _⟩ | ⟨_, hpb, _⟩ | ⟨_, _, hh, _⟩ |
      ⟨_, _, _, _, hcue2, _⟩ | ⟨_, _, _, hid2, _, _⟩ | ⟨_, _, _, hid2, _, _, _, _⟩ |
      ⟨_, _, _, hcase, he⟩
    · exact absurd hb h1
    · rw [hpb] at h2; cases h2
    · rw [hh] at h3; cases h3
    · rw [hcue] at hcue2; cases hcue2
    · rw [hid] at hid2; cases hid2
    · rw [hid] at hid2; cases hid2
    · have hf := fallbackStep_flush st (pyStrip raw) d sc hd hs
      exact ⟨by rw [he]; exact hf.1, by rw [he]; exact hf.2.1⟩

/-- C2, counterexample to the claim as stated: after a blank line the
block opened by JOHN is not closed — the following line "Bye." is
absorbed into it as dialogue rather than action, and since nothing ever
flushes it, the scene ends with an empty dialogue list (the claim would
put a block with lines ["Hi."] there) and an empty action list. -/
theorem C2_counterexample :
    (parseFountain "INT. A - DAY\nJOHN\nHi.\n\nBye.").scenes.map (fun s => s.dialogue) =
      [[]] ∧
    (parseFountain "INT. A - DAY\nJOHN\nHi.\n\nBye.").scenes.map (fun s => s.action) =
      [[]] ∧
    (parseFountain "INT. A - DAY\nJOHN\nHi.\n\nBye.").characters.map
        (fun c => c.word_count) = [2] := by
  refine ⟨by decide, by decide, by decide⟩

/-- An open dialogue block used by the concrete witnesses. -/
def exBlock : Dialogue := { character := "JOHN", lines := ["Hi."], parentheticals := [] }

/-- An open scene used by the concrete witnesses. -/
def exOpenScene : Scene :=
  { scene_number := "1", slug_line := "INT. A", page_number := 1
    int_ext := some "INT", location := some "A", time_of_day := none
    content := "INT. A\n", characters := ["JOHN"]
    dialogue := [], action := [] }

/-- A parse state in dialogue mode with an open block and an open scene. -/
def exStDialogue : PState :=
  { scenes := [], characters := [{ name := "JOHN", dialogue_count := 1
                                   word_count := 1, scenes := ["1"] }]
    current_scene := some exOpenScene, current_character := some "JOHN"
    current_dialogue := some exBlock, in_dialogue := true, counter := 2, page := 1 }

/-- The same state with the in-dialogue flag clear (as a heading leaves it). -/
def exStFallback : PState := { exStDialogue with in_dialogue := false }

/-- C2, witness: the closing rules applied at concrete states — a blank
line is a no-op, "Bye." during dialogue keeps the block open, a heading
ends dialogue mode without flushing, and an action line with the flag
clear flushes the pending block into the open scene. -/
theorem C2_witness :
    step exStDialogue "" = exStDialogue ∧
    ((step exStDialogue "Bye.").in_dialogue = true ∧
      (step exStDialogue "Bye.").current_dialogue.isSome = true ∧
      dialogueBlocks (step exStDialogue "Bye.") = dialogueBlocks exStDialogue) ∧
    ((step exStDialogue "EXT. B").in_dialogue = false ∧
      (step exStDialogue "EXT. B").current_dialogue = exStDialogue.current_dialogue ∧
      dialogueBlocks (step exStDialogue "EXT. B") = dialogueBlocks exStDialogue) ∧
    (dialogueBlocks (step exStFallback "He waits.") =
        dialogueBlocks exStFallback ++ [exBlock] ∧
      (step exStFallback "He waits.").current_dialogue = none) :=
  ⟨C2_dialogue_closing.1 exStDialogue "" (by decide),
   C2_dialogue_closing.2.1 exStDialogue "Bye." (by decide) (by decide) (by decide)
     (by decide) (by decide),
   C2_dialogue_closing.2.2.1 exStDialogue "EXT. B" (by decide) (by decide) (by decide),
   C2_dialogue_closing.2.2.2 exStFallback "He waits." exBlock exOpenScene (by decide)
     (by decide) (by decide) (by decide) (by decide) (by decide) (by decide)⟩

/-! ### C3: scene count and numbering -/

theorem headingStep_counter (st : PState) (l : String) :
    (headingStep st l).counter = st.counter + 1 := rfl

theorem cueStep_counter (st : PState) (l : String) :
    (cueStep st l).counter = st.counter := rfl

theorem dialogueStep_counter (st : PState) (d : Dialogue) (l : String) :
    (dialogueStep st d l).counter = st.counter := rfl

theorem fallbackStep_sceneNums (st : PState) (l : String) :
    sceneNums (fallbackStep st l) = sceneNums st := by
  unfold sceneNums fallbackStep flushScenes
  cases hd : st.current_dialogue <;> cases hs : st.current_scene <;> simp

theorem fallbackStep_counter (st : PState) (l : String) :
    (fallbackStep st l).counter = st.counter := by
  unfold fallbackStep
  cases hd : st.current_dialogue <;> cases hs : st.current_scene <;> simp

/-- A non-heading line changes neither the scene-number list nor the
scene counter. -/
theorem step_preserve_nums (st : PState) (raw : String)
    (h : isHeadingLine raw = false) :
    sceneNums (step st raw) = sceneNums st ∧ (step st raw).counter = st.counter := by
  rcases step_cases st raw with ⟨_, he⟩ | ⟨_, _, he⟩ | ⟨h1, h2, h3, _⟩ |
    ⟨_, _, _, _, _, he⟩ | ⟨_, _, _, _, _, he⟩ | ⟨_, _, _, _, _, d, _, he⟩ |
    ⟨_, _, _, _, he⟩
  · rw [he]; exact ⟨rfl, rfl⟩
  · rw [he]; exact ⟨rfl, rfl⟩
  · exfalso
    have : isHeadingLine raw = true := by
      unfold isHeadingLine
      rw [h2, h3]
      simp [h1]
    rw [this] at h; cases h
  · rw [he]; exact ⟨cueStep_sceneNums st _, cueStep_counter st _⟩
  · rw [he]; exact ⟨parenStep_sceneNums st _, parenStep_counter st _⟩
  · rw [he]; exact ⟨dialogueStep_sceneNums st d _, dialogueStep_counter st d _⟩
  · rw [he]; exact ⟨fallbackStep_sceneNums st _, fallbackStep_counter st _⟩

/-! #### Decimal printing is injective -/

theorem digitsVal_append_digit (l : List Char) (c : Char) :
    digitsVal (l ++ [c]) = digitsVal l * 10 + (c.toNat - '0'.toNat) := by
  unfold digitsVal
  rw [List.foldl_append]
  rfl

theorem natToStrAux_digitsVal :
    ∀ (fuel n : Nat), n < 10 ^ fuel → digitsVal (natToStrAux fuel n) = n := by
  intro fuel
  induction fuel with
  | zero =>
    intro n h
    have : n = 0 := by simpa using Nat.lt_one_iff.mp (by simpa using h)
    subst this
    rfl
  | succ f ih =>
    intro n h
    by_cases h10 : n < 10
    · simp only [natToStrAux, if_pos h10]
      exact (by decide : ∀ m, m < 10 → digitsVal [Nat.digitChar m] = m) n h10
    · simp only [natToStrAux, if_neg h10]
      rw [digitsVal_append_digit]
      rw [ih (n / 10) ((Nat.div_lt_iff_lt_mul (by norm_num)).mpr (by
        rw [← pow_succ]; exact h))]
      have hm : (Nat.digitChar (n % 10)).toNat - '0'.toNat = n % 10 :=
        (by decide : ∀ m, m < 10 → (Nat.digitChar m).toNat - '0'.toNat = m) _
          (Nat.mod_lt n (by norm_num))
      rw [hm]
      omega

theorem natToStr_injective : Function.Injective natToStr := by
  intro a b h
  have hd : natToStrAux (a + 1) a = natToStrAux (b + 1) b := congrArg String.data h
  have hlt : ∀ n : Nat, n < 10 ^ (n + 1) := fun n =>
    lt_of_lt_of_le (Nat.lt_pow_self (by norm_num) n)
      (Nat.pow_le_pow_right (by norm_num) (Nat.le_succ n))
  have ha := natToStrAux_digitsVal (a + 1) a (hlt a)
  have hb := natToStrAux_digitsVal (b + 1) b (hlt b)
  rw [← ha, ← hb, hd]

/-- Folding the parse loop over any line list: the counter advances by
the number of heading lines, the scene list grows by that number, and —
when no line carries an explicit scene-number marker — the appended scene
numbers are the successive decimal counter values. -/
theorem foldl_step_spec (lines : List String) :
    ∀ st : PState,
      ((List.foldl step st lines).counter = st.counter + countHeadings lines) ∧
      ((flushScenes (List.foldl step st lines)).length =
        (flushScenes st).length + countHeadings lines) ∧
      ((∀ raw ∈ lines, hashFree raw) →
        sceneNums (List.foldl step st lines) =
          sceneNums st ++ (List.range (countHeadings lines)).map
            (fun i => natToStr (st.counter + i))) := by
  induction lines with
  | nil =>
    intro st
    refine ⟨by simp [countHeadings], by simp [countHeadings], ?_⟩
    intro _
    simp [countHeadings]
  | cons raw rest ih =>
    intro st
    rw [List.foldl_cons]
    by_cases hh : isHeadingLine raw = true
    · have hcount : countHeadings (raw :: rest) = countHeadings rest + 1 := by
        simp [countHeadings, List.countP_cons, hh]
      obtain ⟨h1, h2, h3⟩ : pyStrip raw ≠ "" ∧ isPageBreak (pyStrip raw) = false ∧
          (matchesHeading (pyStrip raw) || pyStartsWith "." (pyStrip raw)) = true := by
        unfold isHeadingLine at hh
        simp only [Bool.and_eq_true, Bool.not_eq_true', beq_eq_false_iff_ne] at hh
        exact ⟨hh.1.1, hh.1.2, hh.2⟩
      have he : step st raw = headingStep st (pyStrip raw) := by
        simp [step, h1, h2, h3]
      rw [he]
      obtain ⟨ihc, ihl, ihn⟩ := ih (headingStep st (pyStrip raw))
      refine ⟨?_, ?_, ?_⟩
      · rw [ihc, headingStep_counter, hcount]
        omega
      · rw [ihl, headingStep_len, hcount]
        omega
      · intro hfree
        have hfree0 : '#' ∉ (pyStrip raw).data := hfree raw (List.mem_cons_self _ _)
        rw [ihn fun r hr => hfree r (List.mem_cons_of_mem _ hr),
          headingStep_sceneNums st _ hfree0, headingStep_counter, hcount,
          List.append_assoc]
        congr 1
        rw [List.range_succ_eq_map, List.map_cons, List.map_map,
          List.singleton_append, Nat.add_zero]
        congr 1
        exact List.map_congr_left fun i _ => by
          simp only [Function.comp_apply]
          congr 1
          omega
    · have hh' : isHeadingLine raw = false := by
        revert hh; cases isHeadingLine raw <;> simp
      have hcount : countHeadings (raw :: rest) = countHeadings rest := by
        simp [countHeadings, List.countP_cons, hh']
      obtain ⟨hsn, hsc⟩ := step_preserve_nums st raw hh'
      have hlen : (flushScenes (step st raw)).length = (flushScenes st).length := by
        have := congrArg List.length hsn
        simpa [sceneNums] using this
      obtain ⟨ihc, ihl, ihn⟩ := ih (step st raw)
      refine ⟨by rw [ihc, hsc, hcount], by rw [ihl, hlen, hcount], ?_⟩
      intro hfree
      rw [ihn fun r hr => hfree r (List.mem_cons_of_mem _ hr), hsn, hsc, hcount]

/-- C3: corrected.  For every input the parser produces exactly one Scene
record per scene-heading line.  When no line carries an explicit
scene-number marker, the scene numbers are exactly the decimal counter
values "1", "2", ... in encounter order — in particular pairwise
distinct.  (With explicit markers, uniqueness can fail; see the
counterexample.) -/
theorem C3_scene_count_and_numbers (content : String) :
    (parseFountain content).scenes.length = countHeadings (pySplitLines content) ∧
    ((∀ raw ∈ pySplitLines content, hashFree raw) →
      (parseFountain content).scenes.map (fun s => s.scene_number) =
        (List.range (countHeadings (pySplitLines content))).map
          (fun i => natToStr (1 + i)) ∧
      ((parseFountain content).scenes.map (fun s => s.scene_number)).Nodup) := by
  have hsc : (parseFountain content).scenes =
      flushScenes ((pySplitLines content).foldl step initState) := rfl
  obtain ⟨_, hl, hn⟩ := foldl_step_spec (pySplitLines content) initState
  constructor
  · rw [hsc, hl]
    simp [flushScenes, initState]
  · intro hfree
    have hnums := hn hfree
    have hini : sceneNums initState = [] := rfl
    have hmap : (parseFountain content).scenes.map (fun s => s.scene_number) =
        sceneNums ((pySplitLines content).foldl step initState) := by
      rw [hsc]; rfl
    rw [hmap, hnums, hini, List.nil_append]
    refine ⟨rfl, ?_⟩
    refine List.Nodup.map ?_ (List.nodup_range _)
    intro i j hij
    have := natToStr_injective hij
    omega

/-- C3, counterexample to the claim as stated: an explicit scene-number
marker can repeat an automatically assigned number — the two-heading
script has two scenes but both carry scene number "1". -/
theorem C3_counterexample :
    (parseFountain "INT. A\nEXT. B #1#").scenes.map (fun s => s.scene_number) =
      ["1", "1"] ∧
    ¬((parseFountain "INT. A\nEXT. B #1#").scenes.map
        (fun s => s.scene_number)).Nodup := by
  refine ⟨by decide, by decide⟩

/-- C3, witness: a marker-free two-heading script gets exactly 2 scenes
with pairwise distinct scene numbers. -/
theorem C3_witness :
    (parseFountain "INT. A\nsome action\nEXT. B - DAY").scenes.length =
      countHeadings (pySplitLines "INT. A\nsome action\nEXT. B - DAY") ∧
    ((parseFountain "INT. A\nsome action\nEXT. B - DAY").scenes.map
        (fun s => s.scene_number)).Nodup :=
  ⟨(C3_scene_count_and_numbers "INT. A\nsome action\nEXT. B - DAY").1,
   ((C3_scene_count_and_numbers "INT. A\nsome action\nEXT. B - DAY").2
     (by decide)).2⟩

end Filmpro
